import Mathlib

/-!
Verification of the solax_http integration (plugin for X1 Boost/Mini G4
inverters, the plugin factory and the HTTP transport) against its
natural-language specification.

The Python source is shallowly embedded: JSON-like payload values become the
inductive `PyVal`, Python floats are modelled as exact rationals (every
concrete value exercised here is dyadic, so the arithmetic agrees with IEEE
doubles), fallible code returns `Except Unit` (the error standing for an
uncaught Python exception), and the mutable plugin object becomes explicit
state passing over `PluginState`.
-/

/-- Keys of a Python dict as they occur in the decoded JSON payloads:
either an `int` key (the coordinator builds `dict(enumerate(...))`) or a
`str` key (raw JSON objects). -/
inductive PyKey where
  | kInt (n : Int)
  | kStr (s : String)
deriving DecidableEq, Repr

/-- A Python value as it can occur in a decoded JSON payload: `None`, `int`,
`float` (modelled as an exact rational), `str`, `list`, or `dict`
(an association list; lookups use the first matching key). -/
inductive PyVal where
  | vNone
  | vInt (n : Int)
  | vRat (q : Rat)
  | vStr (s : String)
  | vList (xs : List PyVal)
  | vDict (d : List (PyKey × PyVal))

/-- A Python dict value, as passed to `_apply_payload`. -/
abbrev PyDict := List (PyKey × PyVal)

/-- Assoc-list lookup: `some v` iff the key is present (`k in d`). -/
def dictFind (d : PyDict) (k : PyKey) : Option PyVal :=
  match d with
  | [] => none
  | (k', v) :: rest => if k' = k then some v else dictFind rest k

/-- Python `d.get(k)`: the stored value, or `None` when the key is absent. -/
def dictGet (d : PyDict) (k : PyKey) : PyVal :=
  (dictFind d k).getD .vNone

/-- Python truthiness of a value (`if x:`). -/
def truthy : PyVal → Bool
  | .vNone => false
  | .vInt n => n ≠ 0
  | .vRat q => q ≠ 0
  | .vStr s => s ≠ ""
  | .vList xs => ¬xs.isEmpty
  | .vDict d => ¬d.isEmpty

/-- Python `a or b` on values: `a` when truthy, else `b`. -/
def pyOr (a b : PyVal) : PyVal :=
  if truthy a then a else b

/-- Python `str(x)`. Strings, ints and `None` are rendered exactly as
Python does; the renderings of floats, lists and dicts are abbreviated
stand-ins (no claim depends on their exact text, only on their
non-emptiness, which matches Python). -/
def pyStr : PyVal → String
  | .vNone => "None"
  | .vInt n => toString n
  | .vRat q => if q.den = 1 then toString q.num ++ ".0" else toString q
  | .vStr s => s
  | .vList _ => "[list]"
  | .vDict _ => "[dict]"

/-- Digits-only decimal parse; fails on the empty list or a non-digit. -/
def digitsToNat (cs : List Char) : Option Nat :=
  if cs.isEmpty then none
  else cs.foldl
    (fun acc c => acc.bind (fun n => if c.isDigit then some (n * 10 + (c.toNat - 48)) else none))
    (some 0)

/-- Python `int(s)` on a string: optional surrounding whitespace, optional
sign, then decimal digits. -/
def pyStrToInt (s : String) : Option Int :=
  match s.trim.data with
  | '-' :: rest => (digitsToNat rest).map (fun n => -(n : Int))
  | '+' :: rest => (digitsToNat rest).map (fun n => (n : Int))
  | cs => (digitsToNat cs).map (fun n => (n : Int))

/-- Python `int(x)`: exact for ints, truncation toward zero for floats,
string parsing for strs, and a `TypeError`/`ValueError` (here `none`)
for everything else. -/
def pyInt : PyVal → Option Int
  | .vInt n => some n
  | .vRat q => some (q.num.tdiv (q.den : Int))
  | .vStr s => pyStrToInt s
  | _ => none

/-- Digits-only decimal parse that accepts the empty list as 0. -/
def digitsToNat0 (cs : List Char) : Option Nat :=
  cs.foldl
    (fun acc c => acc.bind (fun n => if c.isDigit then some (n * 10 + (c.toNat - 48)) else none))
    (some 0)

/-- Unsigned part of Python `float(s)`: digits with an optional single
decimal point (scientific notation is not modelled; no descriptor or claim
uses it). -/
def pyStrToRatAux (cs : List Char) : Option Rat :=
  let ip := cs.takeWhile (fun c => c ≠ '.')
  match cs.dropWhile (fun c => c ≠ '.') with
  | [] => (digitsToNat ip).map (fun n => (n : Rat))
  | _ :: fp =>
    if fp.any (fun c => c = '.') then none
    else if ip.isEmpty ∧ fp.isEmpty then none
    else match digitsToNat0 ip, digitsToNat0 fp with
      | some a, some b => some ((a : Rat) + (b : Rat) / ((10 : Rat) ^ fp.length))
      | _, _ => none

/-- Python `float(s)` on a string. -/
def pyStrToRat (s : String) : Option Rat :=
  match s.trim.data with
  | '-' :: rest => (pyStrToRatAux rest).map (fun q => -q)
  | '+' :: rest => pyStrToRatAux rest
  | cs => pyStrToRatAux cs

/-- Python `float(x)`: ints and floats convert, strings parse, everything
else raises (here `none`). -/
def pyFloat : PyVal → Option Rat
  | .vInt n => some (n : Rat)
  | .vRat q => some q
  | .vStr s => pyStrToRat s
  | _ => none

/-- Python `len(x)`: defined for strings, lists and dicts; `none` models the
`TypeError` raised for other values. -/
def pyLen : PyVal → Option Nat
  | .vStr s => some s.length
  | .vList xs => some xs.length
  | .vDict d => some d.length
  | _ => none

/-- Python subscript `x[i]` with an int index: list/str indexing (with the
negative-index convention) or int-keyed dict lookup; `.error` models the
`IndexError`/`KeyError`/`TypeError` raised otherwise. -/
def pyIndex (v : PyVal) (i : Int) : Except Unit PyVal :=
  match v with
  | .vList xs =>
    let j := if i < 0 then (xs.length : Int) + i else i
    if 0 ≤ j ∧ j < (xs.length : Int) then .ok (xs.getD j.toNat .vNone) else .error ()
  | .vStr s =>
    let j := if i < 0 then (s.length : Int) + i else i
    if 0 ≤ j ∧ j < (s.length : Int) then .ok (.vStr (String.mk [s.data.getD j.toNat ' '])) else .error ()
  | .vDict d =>
    match dictFind d (.kInt i) with
    | some x => .ok x
    | none => .error ()
  | _ => .error ()

/-- Python round-half-to-even of a rational to an integer (`round(x)`). -/
def roundHalfEven (q : Rat) : Int :=
  let f := ⌊q⌋
  let frac := q - (f : Rat)
  if frac < 1/2 then f
  else if 1/2 < frac then f + 1
  else if f % 2 = 0 then f else f + 1

/-- Python `round(x, ndigits)` for a non-negative digit count, on the exact
rational model of floats. -/
def pyRound (q : Rat) (ndigits : Nat) : Rat :=
  let m : Rat := (10 : Rat) ^ ndigits
  ((roundHalfEven (q * m) : Int) : Rat) / m

/-! ## Bit-flag constants and the unit sentinel

`entity_definitions.py` and `const.py` are not under `src/`; the spec
describes the flags as independent bits combined with bitwise or. -/

/-- Modelled from the spec: bit-flag constant `V10` of `entity_definitions.py`
(file absent from src/); the spec fixes only that the flags are independent
bit flags, so each gets a distinct bit. -/
def V10 : Nat := 1

/-- Modelled from the spec: bit-flag constant `V11` of `entity_definitions.py`. -/
def V11 : Nat := 2

/-- Modelled from the spec: bit-flag constant `V20` of `entity_definitions.py`. -/
def V20 : Nat := 4

/-- Modelled from the spec: bit-flag constant `X1` (single-phase) of
`entity_definitions.py`. -/
def X1 : Nat := 8

/-- Modelled from the spec: bit-flag constant `X3` (three-phase) of
`entity_definitions.py`. -/
def X3 : Nat := 16

/-- Modelled from the spec: bit-flag constant `POW7` (7kW) of
`entity_definitions.py`. -/
def POW7 : Nat := 32

/-- Modelled from the spec: bit-flag constant `POW11` (11kW) of
`entity_definitions.py`. -/
def POW11 : Nat := 64

/-- Modelled from the spec: bit-flag constant `POW22` (22kW) of
`entity_definitions.py`. -/
def POW22 : Nat := 128

/-- Modelled from the spec: the `S16` unit sentinel of `const.py` (file
absent from src/), marking a register as a two's-complement 16-bit
quantity. Only its identity matters, so it is a one-constructor tag. -/
inductive RegisterUnit where
  | s16
deriving DecidableEq, Repr

/-! ## Decoder helpers of plugins/inverter_g4_boostmini.py -/

/-- Embeds `_extract_index_value` (inverter_g4_boostmini.py lines 35-52):
value at *index* in a dict (native int key, then its string form) or a
list (bounds-checked); `None` for anything else. -/
def extractIndexValue (container : PyVal) (index : Option Int) : PyVal :=
  match index, container with
  | none, _ => .vNone
  | some _, .vNone => .vNone
  | some i, .vDict d =>
    match dictFind d (.kInt i) with
    | some v => v
    | none =>
      match dictFind d (.kStr (toString i)) with
      | some v => v
      | none => .vNone
  | some i, .vList xs =>
    if 0 ≤ i ∧ i < (xs.length : Int) then xs.getD i.toNat .vNone else .vNone
  | _, _ => .vNone

/-- ASCII lowercasing of one character, the part of Python `str.lower()`
the source strings ("Data", "Info", "Payload") exercise. -/
def pyLowerChar (c : Char) : Char :=
  if 'A' ≤ c ∧ c ≤ 'Z' then Char.ofNat (c.toNat + 32) else c

/-- Python `s.lower()` for the ASCII source-type strings. -/
def pyLower (s : String) : String :=
  String.mk (s.data.map pyLowerChar)

/-- The per-candidate body of `_get_container_for_source`: select the
container a dict candidate offers for the requested (lowercased) source
type. -/
def candidateContainer (d : PyDict) (containerType : String) : PyVal :=
  let ct := pyLower containerType
  if ct = "data" then dictGet d (.kStr "Data")
  else if ct = "info" ∨ ct = "information" then
    pyOr (dictGet d (.kStr "Information")) (dictGet d (.kStr "Info"))
  else if ct = "payload" then .vDict d
  else .vNone

/-- Embeds `_get_container_for_source` (lines 55-90): a list source is
returned whole; a dict source is probed first through its nested
`RawRealtimeData` dict (when present) and then directly, taking the first
candidate whose selected container is not `None`. -/
def getContainerForSource (source : PyVal) (containerType : String) : PyVal :=
  match source with
  | .vList xs => .vList xs
  | .vDict d =>
    match dictFind d (.kStr "RawRealtimeData") with
    | some (.vDict rd) =>
      match candidateContainer rd containerType with
      | .vNone => candidateContainer d containerType
      | c => c
    | _ => candidateContainer d containerType
  | _ => .vNone

/-- Embeds `_resolve_data_value` (lines 93-107): the raw value for *index*
from the live data, falling back to the cached last payload. -/
def resolveDataValue (data lastPayload : PyVal) (index : Option Int) (source : String) : PyVal :=
  match extractIndexValue (getContainerForSource data source) index with
  | .vNone => extractIndexValue (getContainerForSource lastPayload source) index
  | v => v

/-- Embeds the closure built by `_make_pv_power_function` (lines 110-133):
derive PV power from the already-scaled voltage and a secondary current
register. The Python closure ignores its `descr` parameter, so the
embedding drops it. -/
def pvPowerValueFunction (currentIndex : Int) (currentFactor : Rat) :
    Rat → PyVal → PyVal → Option Rat :=
  fun voltage data lastPayload =>
    match resolveDataValue data lastPayload (some currentIndex) "Data" with
    | .vNone => none
    | raw =>
      match pyFloat raw with
      | none => none
      | some c => some (voltage * (c * currentFactor))

/-- Embeds `InverterSensorDescription` (lines 24-32), keeping the fields the
decoder reads (`unit` and `value_function` come from the
`BaseHttpSensorEntityDescription` base in const.py, absent from src/; the
host-framework metadata fields such as device_class are opaque tags the
decoder never touches and are omitted). -/
structure InverterSensorDescription where
  key : String
  index : Option Int
  source : String
  factor : Rat
  invert_sign : Bool
  precision : Option Nat
  unit : Option RegisterUnit
  value_function : Option (Rat → PyVal → PyVal → Option Rat)

/-- The dynamically-typed `descr` argument of `map_data`: either an
`InverterSensorDescription` or any other object. -/
inductive AnyDescr where
  | inverter (d : InverterSensorDescription)
  | other

/-! ## Plugin state (SolaxInverterG4BoostMiniPlugin) -/

/-- Embeds the mutable state of `SolaxInverterG4BoostMiniPlugin`
(inverter_g4_boostmini.py lines 253-268) together with the identity fields
it inherits: `serialnumber`, `invertertype`, `sw_version` and `hw_version`
come from `plugin_base` (absent from src/), modelled from the spec's
`DeviceIdentity` as optional values defaulting to null. The static
descriptor tables the constructor also receives are per-model constants the
state never mutates and are kept outside the state. -/
structure PluginState where
  serialnumber : Option String
  invertertype : Option Nat
  sw_version : Option String
  hw_version : Option String
  host : String
  registration : String
  use_x_forwarded_for : Bool
  initial_payload : Option PyDict
  runtime_type : Option Int
  device_serial : Option String
  info_serial : Option String
  firmware : Option String
  supports_set_data : Bool
  _model_name : Option String
  _last_payload : Option PyDict

/-- Python truthiness of a `str | None` field (`if not self.serialnumber:`). -/
def strTruthy : Option String → Bool
  | none => false
  | some s => s ≠ ""

/-- Python truthiness of an `int | None` bitmask field
(`if not self.invertertype:`). -/
def natTruthy : Option Nat → Bool
  | none => false
  | some n => n ≠ 0

/-- The cached `self._last_payload` as a Python value (`None` or the dict). -/
def lastPayloadVal (st : PluginState) : PyVal :=
  match st._last_payload with
  | some p => .vDict p
  | none => .vNone

/-- The `inverter_model` / `_model_name` lookup (lines 281-289 and 374-380):
runtime-type 18 and 22 map to the two G4 names, anything else to the
generic name. -/
def modelNameOf (runtime_type : Option Int) : String :=
  if runtime_type = some 18 then "X1 Boost G4"
  else if runtime_type = some 22 then "X1 Mini G4"
  else "SolaX Inverter"

/-! ### `_apply_payload` (lines 340-380), split into its successive
statement groups. Each step embeds a contiguous block of the source. -/

/-- Line 341: `self._last_payload = payload`. -/
def stepLast (st : PluginState) (p : PyDict) : PluginState :=
  { st with _last_payload := some p }

/-- Lines 342-347: set `runtime_type` from `payload["type"]` once
(`int(...)` failure stores `None` again). -/
def stepRuntime (st : PluginState) (p : PyDict) : PluginState :=
  if st.runtime_type = none then
    { st with runtime_type := pyInt (dictGet p (.kStr "type")) }
  else st

/-- Lines 349-351: a falsy `invertertype` becomes the fixed `X1` bitmask. -/
def stepInverter (st : PluginState) : PluginState :=
  if natTruthy st.invertertype then st else { st with invertertype := some X1 }

/-- Line 353: `info = payload.get("Information") or []`. -/
def infoOf (p : PyDict) : PyVal :=
  pyOr (dictGet p (.kStr "Information")) (.vList [])

/-- Lines 354-355: first-wins update of `info_serial` from `info[2]`; the
`len(info)` / `info[2]` evaluations can raise on malformed payloads. -/
def stepInfoSerial (st : PluginState) (info : PyVal) : Except Unit PluginState :=
  if strTruthy st.info_serial then .ok st
  else
    match pyLen info with
    | none => .error ()
    | some n =>
      if 2 < n then
        (pyIndex info 2).map (fun v => { st with info_serial := some (pyStr v) })
      else .ok st

/-- Lines 356-357: set `device_serial` from a truthy `payload["sn"]` when it
is still `None`. -/
def stepDeviceSerial (st : PluginState) (p : PyDict) : PluginState :=
  if st.device_serial = none ∧ truthy (dictGet p (.kStr "sn")) then
    { st with device_serial := some (pyStr (dictGet p (.kStr "sn"))) }
  else st

/-- Lines 359-367: when `serialnumber` is falsy, choose it with preference
`device_serial`, then `info_serial`, then `payload["sn"]`, then the
configured registration (each taken when truthy); otherwise leave it. -/
def stepSerial (st : PluginState) (p : PyDict) : PluginState :=
  if strTruthy st.serialnumber then st
  else if strTruthy st.device_serial then { st with serialnumber := st.device_serial }
  else if strTruthy st.info_serial then { st with serialnumber := st.info_serial }
  else if truthy (dictGet p (.kStr "sn")) then
    { st with serialnumber := some (pyStr (dictGet p (.kStr "sn"))) }
  else if st.registration ≠ "" then { st with serialnumber := some st.registration }
  else st

/-- The assignment guard of lines 369-370: `info[3] not in (None, "")`
keeps `hw_version` unless the entry is `None` or the empty string. -/
def hwSet (st : PluginState) (v : PyVal) : PluginState :=
  match v with
  | .vNone => st
  | .vStr s => if s = "" then st else { st with hw_version := some (pyStr (.vStr s)) }
  | w => { st with hw_version := some (pyStr w) }

/-- Lines 369-370: overwrite `hw_version` from `info[3]` whenever present
and non-empty; `len(info)` is evaluated unconditionally here and can
raise. -/
def stepHW (st : PluginState) (info : PyVal) : Except Unit PluginState :=
  match pyLen info with
  | none => .error ()
  | some n =>
    if 3 < n then (pyIndex info 3).map (hwSet st)
    else .ok st

/-- Lines 371-372: overwrite `sw_version` from a truthy `payload["ver"]`. -/
def stepSW (st : PluginState) (p : PyDict) : PluginState :=
  if truthy (dictGet p (.kStr "ver")) then
    { st with sw_version := some (pyStr (dictGet p (.kStr "ver"))) }
  else st

/-- Lines 374-380: first-wins update of `_model_name` from `runtime_type`. -/
def stepModel (st : PluginState) : PluginState :=
  if strTruthy st._model_name then st
  else { st with _model_name := some (modelNameOf st.runtime_type) }

/-- Embeds `SolaxInverterG4BoostMiniPlugin._apply_payload` (lines 340-380)
as the sequence of its statement groups; `.error` models an uncaught
exception escaping the method. -/
def applyPayload (st : PluginState) (p : PyDict) : Except Unit PluginState := do
  let st1 := stepRuntime (stepLast st p) p
  let st2 := stepInverter st1
  let info := infoOf p
  let st3 ← stepInfoSerial st2 info
  let st4 := stepDeviceSerial st3 p
  let st5 := stepSerial st4 p
  let st6 ← stepHW st5 info
  pure (stepModel (stepSW st6 p))

/-! ## `map_data` (lines 291-338) -/

/-- Lines 294-299 (shared with `initialize`): the payload dict `map_data`
applies on first contact with a dict argument — the nested
`RawRealtimeData` dict when present, else the argument itself; non-dict
arguments carry no payload. -/
def payloadOf (data : PyVal) : Option PyDict :=
  match data with
  | .vDict d =>
    match dictFind d (.kStr "RawRealtimeData") with
    | some (.vDict rd) => some rd
    | _ => some d
  | _ => none

/-- The identity-update side effect of `map_data` in isolation: apply the
extracted payload (if any) for an `InverterSensorDescription`, and touch
nothing for any other descriptor. -/
def mapDataState (st : PluginState) (descr : AnyDescr) (data : PyVal) :
    Except Unit PluginState :=
  match descr with
  | .other => .ok st
  | .inverter _ =>
    match payloadOf data with
    | some p => applyPayload st p
    | none => .ok st

/-- Lines 301-303: the container for the descriptor's source, falling back
to the cached last payload when the live data yields `None`. -/
def mapDataContainer (st : PluginState) (d : InverterSensorDescription) (data : PyVal) : PyVal :=
  match getContainerForSource data d.source with
  | .vNone => getContainerForSource (lastPayloadVal st) d.source
  | c => c

/-- The pure decode tail of `map_data` (lines 301-338), evaluated on the
state left by the identity update: resolve the container and index, apply
the S16 two's-complement unwrap when the descriptor's unit is S16, convert
to a number, scale by the factor, run the derive function, apply the sign
inversion, and round (or normalize an integral float to an int). Every
early `return None` of these lines becomes `vNone`. -/
def decodeValue (st : PluginState) (d : InverterSensorDescription) (data : PyVal) : PyVal :=
  match extractIndexValue (mapDataContainer st d data) d.index with
  | .vNone => .vNone
  | raw0 =>
    let s16res : Option PyVal :=
      match d.unit with
      | some .s16 =>
        match pyInt raw0 with
        | none => none
        | some n => some (.vInt (if 0x8000 ≤ n then n - 0x10000 else n))
      | none => some raw0
    match s16res with
    | none => .vNone
    | some raw =>
      match pyFloat raw with
      | none => .vNone
      | some v0 =>
        let v1 := v0 * d.factor
        let v2opt : Option Rat :=
          match d.value_function with
          | none => some v1
          | some vf => vf v1 data (lastPayloadVal st)
        match v2opt with
        | none => .vNone
        | some v2 =>
          let v3 := if d.invert_sign then -v2 else v2
          match d.precision with
          | some pr => .vRat (pyRound v3 pr)
          | none => if v3.den = 1 then .vInt v3.num else .vRat v3

/-- Embeds `SolaxInverterG4BoostMiniPlugin.map_data` (lines 291-338): the
identity update on first contact with the payload (lines 294-299), then the
pure decode of `decodeValue` (lines 301-338; after the identity update the
method only ever returns a value or `None`, so the decode tail is a pure
function of the updated state). The result pairs the possibly-updated
plugin state with the decoded value; Python's `None` result is `vNone`. -/
def mapData (st : PluginState) (descr : AnyDescr) (data : PyVal) :
    Except Unit (PluginState × PyVal) :=
  match descr with
  | .other => .ok (st, .vNone)
  | .inverter d =>
    match payloadOf data with
    | some p => (applyPayload st p).map (fun stA => (stA, decodeValue stA d data))
    | none => .ok (st, decodeValue st d data)

/-! ## `create_plugin` (lines 383-425) -/

/-- Embeds the factory helper `create_plugin`: derive `runtime_type` from
the payload, construct the plugin with
`serialnumber = info_serial or device_serial or registration`, re-assign a
truthy `info_serial` and `sw_version`, and apply a truthy payload. -/
def createPlugin (host registration : String) (useXff : Bool)
    (payload : Option PyDict) (info_serial device_serial firmware : Option String) :
    Except Unit PluginState :=
  let payloadTruthy : Bool :=
    match payload with
    | some (_ :: _) => true
    | _ => false
  let runtime_type : Option Int :=
    match payload with
    | some p =>
      if payloadTruthy then
        match dictGet p (.kStr "type") with
        | .vNone => none
        | v => pyInt v
      else none
    | none => none
  let serialInit : Option String :=
    if strTruthy info_serial then info_serial
    else if strTruthy device_serial then device_serial
    else some registration
  let st : PluginState :=
    { serialnumber := serialInit
      invertertype := none
      sw_version := none
      hw_version := none
      host := host
      registration := registration
      use_x_forwarded_for := useXff
      initial_payload := payload
      runtime_type := runtime_type
      device_serial := device_serial
      info_serial := info_serial
      firmware := firmware
      supports_set_data := false
      _model_name := none
      _last_payload := none }
  let st := if strTruthy firmware then { st with sw_version := firmware } else st
  let st := if strTruthy info_serial then { st with serialnumber := info_serial } else st
  match payload with
  | some p => if payloadTruthy then applyPayload st p else .ok st
  | none => .ok st

/-! ## `PluginFactory._determine_type` (plugin_factory.py lines 146-184) -/

/-- Python `s.startswith(pre)`, modelled on the character lists. -/
def pyStartsWith (s pre : String) : Bool :=
  pre.data.isPrefixOf s.data

/-- Character at position `i` of a Python string (`s[i]` for non-negative
literal positions under a length guard). -/
def charAt (s : String) (i : Nat) : Option Char :=
  s.data.get? i

/-- Python slice `s[a:b]` (for literal non-negative bounds), as characters. -/
def pySlice (s : String) (a b : Nat) : List Char :=
  (s.data.drop a).take (b - a)

/-- Embeds `PluginFactory._determine_type`: charger-family bitmask from the
serial-number pattern (`"C"` prefix: hardware flag at position 4, phase at
position 1, power class at characters 2-3; `"50"` prefix: `V20`, phase at
position 2, power class at position 4), `none` for a falsy serial or any
other prefix. -/
def determineType (sn : Option String) : Option Nat :=
  match sn with
  | none => none
  | some s =>
    if s.data.length = 0 then none
    else if pyStartsWith s "C" then
      let t1 : Nat :=
        if 4 < s.data.length ∧ charAt s 4 = some '0' then V10
        else if 4 < s.data.length ∧ charAt s 4 = some '1' then V11
        else 0
      let t2 : Nat :=
        if 1 < s.data.length ∧ charAt s 1 = some '1' then X1
        else if 1 < s.data.length ∧ charAt s 1 = some '3' then X3
        else 0
      let t3 : Nat :=
        if pySlice s 2 4 = ['0', '7'] then POW7
        else if pySlice s 2 4 = ['1', '1'] then POW11
        else if pySlice s 2 4 = ['2', '2'] then POW22
        else 0
      some (t1 ||| t2 ||| t3)
    else if pyStartsWith s "50" then
      let t2 : Nat :=
        if 2 < s.data.length ∧ charAt s 2 = some '3' then X3
        else if 2 < s.data.length ∧ charAt s 2 = some '2' then X1
        else 0
      let t3 : Nat :=
        if 4 < s.data.length ∧ charAt s 4 = some 'B' then POW11
        else if 4 < s.data.length ∧ charAt s 4 = some 'M' then POW22
        else if 4 < s.data.length ∧ charAt s 4 = some '7' then POW7
        else 0
      some (V20 ||| t2 ||| t3)
    else none

/-! ## Transport retry (`SolaxHttpUpdateCoordinator._http_post`,
coordinator.py lines 182-212; `PluginFactory._http_post` shares the same
per-class retry structure) -/

/-- Outcome of one HTTP attempt: a response with a status and body, or one
of the exception classes the transport distinguishes. -/
inductive AttemptOutcome where
  | response (status : Nat) (body : String)
  | timeoutErr
  | serverDisconnected
  | clientOSError
  | clientError
  | otherError
deriving DecidableEq, Repr

/-- Whether an outcome belongs to a retried error class (timeout,
server-disconnect, client OS error, generic client error). -/
def retriedOutcome : AttemptOutcome → Bool
  | .timeoutErr => true
  | .serverDisconnected => true
  | .clientOSError => true
  | .clientError => true
  | _ => false

/-- Embeds `_http_post` with the environment `env` giving the outcome of
the k-th attempt: status 200 returns the body, any other status returns
`None` with no retry, a retried error class recurses on `retry - 1` while
retries remain (`if retry > 0` / `if retry:` both mean nonzero for the
non-negative counts modelled), an unexpected error returns `None`. The
result pairs the returned value with the number of attempts performed. -/
def httpPostFrom (env : Nat → AttemptOutcome) : Nat → Nat → Option String × Nat
  | k, retry =>
    match env k, retry with
    | .response s body, _ => (if s = 200 then some body else none, 1)
    | .otherError, _ => (none, 1)
    | _, 0 => (none, 1)
    | _, r + 1 =>
      let p := httpPostFrom env (k + 1) r
      (p.1, p.2 + 1)

/-- `_http_post` started at the first attempt. -/
def httpPost (env : Nat → AttemptOutcome) (retry : Nat) : Option String × Nat :=
  httpPostFrom env 0 retry

/-! ## The SENSOR_TYPES descriptor table (lines 136-250); only the
decode-relevant fields are carried (see `InverterSensorDescription`). -/

/-- Descriptor `ac_power` (index 3, factor 1.0, precision 0). -/
def acPowerDescr : InverterSensorDescription :=
  { key := "ac_power", index := some 3, source := "Data", factor := 1,
    invert_sign := false, precision := some 0, unit := none, value_function := none }

/-- Descriptor `pv1_power` (index 0, factor 0.1, precision 0, PV power
derived from current index 1 with factor 0.1). -/
def pv1PowerDescr : InverterSensorDescription :=
  { key := "pv1_power", index := some 0, source := "Data", factor := 1/10,
    invert_sign := false, precision := some 0, unit := none,
    value_function := some (pvPowerValueFunction 1 (1/10)) }

/-- Descriptor `pv2_power` (index 13, factor 0.1, precision 0, PV power
derived from current index 10 with factor 0.1). -/
def pv2PowerDescr : InverterSensorDescription :=
  { key := "pv2_power", index := some 13, source := "Data", factor := 1/10,
    invert_sign := false, precision := some 0, unit := none,
    value_function := some (pvPowerValueFunction 10 (1/10)) }

/-- Descriptor `grid_power` (index 72, factor 1.0, precision 0, unit S16). -/
def gridPowerDescr : InverterSensorDescription :=
  { key := "grid_power", index := some 72, source := "Data", factor := 1,
    invert_sign := false, precision := some 0, unit := some .s16, value_function := none }

/-- Descriptor `today_energy` (index 21, factor 0.1, precision 2). -/
def todayEnergyDescr : InverterSensorDescription :=
  { key := "today_energy", index := some 21, source := "Data", factor := 1/10,
    invert_sign := false, precision := some 2, unit := none, value_function := none }

/-- Descriptor `total_energy` (index 74, factor 0.1, precision 2). -/
def totalEnergyDescr : InverterSensorDescription :=
  { key := "total_energy", index := some 74, source := "Data", factor := 1/10,
    invert_sign := false, precision := some 2, unit := none, value_function := none }

/-- Descriptor `pv1_voltage` (index 0, factor 0.1, precision 1). -/
def pv1VoltageDescr : InverterSensorDescription :=
  { key := "pv1_voltage", index := some 0, source := "Data", factor := 1/10,
    invert_sign := false, precision := some 1, unit := none, value_function := none }

/-- Descriptor `pv1_current` (index 1, factor 0.1, precision 1). -/
def pv1CurrentDescr : InverterSensorDescription :=
  { key := "pv1_current", index := some 1, source := "Data", factor := 1/10,
    invert_sign := false, precision := some 1, unit := none, value_function := none }

/-- Descriptor `pv2_voltage` (index 13, factor 0.1, precision 1). -/
def pv2VoltageDescr : InverterSensorDescription :=
  { key := "pv2_voltage", index := some 13, source := "Data", factor := 1/10,
    invert_sign := false, precision := some 1, unit := none, value_function := none }

/-- Descriptor `pv2_current` (index 10, factor 0.1, precision 1). -/
def pv2CurrentDescr : InverterSensorDescription :=
  { key := "pv2_current", index := some 10, source := "Data", factor := 1/10,
    invert_sign := false, precision := some 1, unit := none, value_function := none }

/-- Descriptor `inverter_temperature` (index 23, factor 1.0, precision 0). -/
def inverterTemperatureDescr : InverterSensorDescription :=
  { key := "inverter_temperature", index := some 23, source := "Data", factor := 1,
    invert_sign := false, precision := some 0, unit := none, value_function := none }

/-- The plugin's SENSOR_TYPES table. -/
def SENSOR_TYPES : List InverterSensorDescription :=
  [acPowerDescr, pv1PowerDescr, pv2PowerDescr, gridPowerDescr, todayEnergyDescr,
   totalEnergyDescr, pv1VoltageDescr, pv1CurrentDescr, pv2VoltageDescr,
   pv2CurrentDescr, inverterTemperatureDescr]

/-- A plugin state with every identity field still unset, as the dataclass
defaults leave it. -/
def freshState : PluginState :=
  { serialnumber := none
    invertertype := none
    sw_version := none
    hw_version := none
    host := ""
    registration := ""
    use_x_forwarded_for := true
    initial_payload := none
    runtime_type := none
    device_serial := none
    info_serial := none
    firmware := none
    supports_set_data := false
    _model_name := none
    _last_payload := none }

/-! ## Concrete inputs used by the verification -/

/-- A payload carrying only a firmware version "1.0". -/
def verPayload1 : PyDict := [(.kStr "ver", .vStr "1.0")]

/-- A payload carrying only a firmware version "2.0". -/
def verPayload2 : PyDict := [(.kStr "ver", .vStr "2.0")]

/-- A payload carrying only an embedded serial "S". -/
def snPayload : PyDict := [(.kStr "sn", .vStr "S")]

/-- Two consecutive `_apply_payload` calls. -/
def applyTwice (st : PluginState) (p q : PyDict) : Except Unit PluginState :=
  (applyPayload st p).bind (fun s => applyPayload s q)

/-- A snapshot whose Data container holds raw value `r` at the grid-power
index 72. -/
def gridData (r : Int) : PyVal :=
  .vDict [(.kStr "Data", .vDict [(.kInt 72, .vInt r)])]

/-- A snapshot with PV1 voltage raw 3605 (index 0) and PV1 current raw 25
(index 1). -/
def pv1Data : PyVal :=
  .vDict [(.kStr "Data", .vDict [(.kInt 0, .vInt 3605), (.kInt 1, .vInt 25)])]

/-- A snapshot holding only the PV1 current raw value 25 at index 1. -/
def currentOnlyData : PyVal :=
  .vDict [(.kStr "Data", .vDict [(.kInt 1, .vInt 25)])]

/-- A malformed snapshot whose `Information` entry is a bare integer. -/
def badInfoData : PyVal :=
  .vDict [(.kStr "Information", .vInt 5)]

/-- An attempt environment in which every attempt times out. -/
def timeoutEnv : Nat → AttemptOutcome :=
  fun _ => .timeoutErr

/-- A plugin state with every identity field already populated. -/
def fullIdentityState : PluginState :=
  { freshState with
    serialnumber := some "SN"
    device_serial := some "DS"
    info_serial := some "IS"
    runtime_type := some 18
    invertertype := some X1
    _model_name := some "X1 Boost G4"
    sw_version := some "1.0"
    hw_version := some "2.0" }

/-- The state `_apply_payload` leaves when applied to `fullIdentityState`
with an empty payload: only the payload cache changes. -/
def fullIdentityAfterEmpty : PluginState :=
  { fullIdentityState with _last_payload := some ([] : PyDict) }

/-- A payload carrying a runtime type, serial, firmware version and a full
Information array. -/
def richPayload : PyDict :=
  [(.kStr "type", .vInt 18), (.kStr "sn", .vStr "SN1"), (.kStr "ver", .vStr "3.0"),
   (.kStr "Information", .vList [.vStr "a", .vStr "b", .vStr "I2", .vStr "H3", .vStr "F4"])]

/-- The state `_apply_payload` derives from `richPayload` on a fresh plugin. -/
def richApplied : PluginState :=
  { freshState with
    runtime_type := some 18
    invertertype := some X1
    info_serial := some "I2"
    device_serial := some "SN1"
    serialnumber := some "SN1"
    hw_version := some "H3"
    sw_version := some "3.0"
    _model_name := some "X1 Boost G4"
    _last_payload := some richPayload }

/-- What `_apply_payload` leaves of a fresh plugin given an empty payload:
the fixed bitmask, the default model name and the payload cache. -/
def freshAfterEmpty : PluginState :=
  { freshState with
    invertertype := some X1
    _model_name := some "SolaX Inverter"
    _last_payload := some ([] : PyDict) }

/-- The serial-number preference chain of `_apply_payload` (lines 359-367),
read off a state `s` carrying the already-updated `device_serial` and
`info_serial` fields: `device_serial`, then `info_serial`, then the
payload-embedded serial, then the configured registration, each taken when
truthy; otherwise the serial number is left as it was. -/
def serialPreference (st : PluginState) (p : PyDict) (s : PluginState) : Option String :=
  if strTruthy s.device_serial then s.device_serial
  else if strTruthy s.info_serial then s.info_serial
  else if truthy (dictGet p (.kStr "sn")) then some (pyStr (dictGet p (.kStr "sn")))
  else if st.registration ≠ "" then some st.registration
  else st.serialnumber

/-- The serial number `_apply_payload` leaves behind. -/
def serialAfter (st : PluginState) (p : PyDict) : Except Unit (Option String) :=
  (applyPayload st p).map PluginState.serialnumber

/-- The preference chain evaluated on the state `_apply_payload` produces. -/
def serialChainAfter (st : PluginState) (p : PyDict) : Except Unit (Option String) :=
  (applyPayload st p).map (serialPreference st p)

/-- The serial number `create_plugin` assigns. -/
def factorySerial (host registration : String) (useXff : Bool) (payload : Option PyDict)
    (info_serial device_serial firmware : Option String) : Except Unit (Option String) :=
  (createPlugin host registration useXff payload info_serial device_serial firmware).map
    PluginState.serialnumber

/-! ## Helper lemmas about the `_apply_payload` steps -/

/-- `applyPayload` written with explicit binds, for rewriting. -/
theorem applyPayload_def (st : PluginState) (p : PyDict) :
    applyPayload st p =
      (stepInfoSerial (stepInverter (stepRuntime (stepLast st p) p)) (infoOf p)).bind
        (fun st3 =>
          (stepHW (stepSerial (stepDeviceSerial st3 p) p) (infoOf p)).bind
            (fun st6 => Except.ok (stepModel (stepSW st6 p)))) :=
  rfl

theorem stepRuntime_shape (st : PluginState) (p : PyDict) :
    ∃ v, stepRuntime st p = { st with runtime_type := v } := by
  unfold stepRuntime
  split
  · exact ⟨_, rfl⟩
  · exact ⟨st.runtime_type, rfl⟩

theorem stepInverter_shape (st : PluginState) :
    ∃ v, stepInverter st = { st with invertertype := v } := by
  unfold stepInverter
  split
  · exact ⟨st.invertertype, rfl⟩
  · exact ⟨_, rfl⟩

theorem stepInfoSerial_shape (st : PluginState) (info : PyVal) (st' : PluginState)
    (h : stepInfoSerial st info = .ok st') :
    ∃ v, st' = { st with info_serial := v } := by
  unfold stepInfoSerial at h
  split at h
  · cases h
    exact ⟨st.info_serial, rfl⟩
  · split at h
    · cases h
    · split at h
      · cases hidx : pyIndex info 2 with
        | error e =>
          simp only [hidx, Except.map] at h
          cases h
        | ok v =>
          simp only [hidx, Except.map] at h
          cases h
          exact ⟨_, rfl⟩
      · cases h
        exact ⟨st.info_serial, rfl⟩

theorem stepDeviceSerial_shape (st : PluginState) (p : PyDict) :
    ∃ v, stepDeviceSerial st p = { st with device_serial := v } := by
  unfold stepDeviceSerial
  split
  · exact ⟨_, rfl⟩
  · exact ⟨st.device_serial, rfl⟩

theorem stepSerial_shape (st : PluginState) (p : PyDict) :
    ∃ v, stepSerial st p = { st with serialnumber := v } := by
  unfold stepSerial
  split
  · exact ⟨st.serialnumber, rfl⟩
  · split
    · exact ⟨_, rfl⟩
    · split
      · exact ⟨_, rfl⟩
      · split
        · exact ⟨_, rfl⟩
        · split
          · exact ⟨_, rfl⟩
          · exact ⟨st.serialnumber, rfl⟩

theorem stepHW_shape (st : PluginState) (info : PyVal) (st' : PluginState)
    (h : stepHW st info = .ok st') :
    ∃ v, st' = { st with hw_version := v } := by
  unfold stepHW at h
  split at h
  · cases h
  · split at h
    · cases hidx : pyIndex info 3 with
      | error e =>
        simp only [hidx, Except.map] at h
        cases h
      | ok v =>
        simp only [hidx, Except.map] at h
        cases h
        unfold hwSet
        split
        · exact ⟨st.hw_version, rfl⟩
        · split
          · exact ⟨st.hw_version, rfl⟩
          · exact ⟨_, rfl⟩
        · exact ⟨_, rfl⟩
    · cases h
      exact ⟨st.hw_version, rfl⟩

theorem stepSW_shape (st : PluginState) (p : PyDict) :
    ∃ v, stepSW st p = { st with sw_version := v } := by
  unfold stepSW
  split
  · exact ⟨_, rfl⟩
  · exact ⟨st.sw_version, rfl⟩

theorem stepModel_shape (st : PluginState) :
    ∃ v, stepModel st = { st with _model_name := v } := by
  unfold stepModel
  split
  · exact ⟨st._model_name, rfl⟩
  · exact ⟨_, rfl⟩

/-- Decomposition of a successful `applyPayload` run into its stages. -/
theorem applyPayload_ok_decomp (st : PluginState) (p : PyDict) (st' : PluginState)
    (h : applyPayload st p = .ok st') :
    ∃ st3 st6,
      stepInfoSerial (stepInverter (stepRuntime (stepLast st p) p)) (infoOf p) = .ok st3 ∧
      stepHW (stepSerial (stepDeviceSerial st3 p) p) (infoOf p) = .ok st6 ∧
      st' = stepModel (stepSW st6 p) := by
  rw [applyPayload_def] at h
  cases h3 : stepInfoSerial (stepInverter (stepRuntime (stepLast st p) p)) (infoOf p) with
  | error e => rw [h3] at h; cases h
  | ok st3 =>
    rw [h3] at h
    simp only [Except.bind] at h
    cases h6 : stepHW (stepSerial (stepDeviceSerial st3 p) p) (infoOf p) with
    | error e => rw [h6] at h; cases h
    | ok st6 =>
      rw [h6] at h
      simp only [Except.bind] at h
      cases h
      exact ⟨st3, st6, by simp [h3], by simp [h6], rfl⟩

/-! ### No-op and reapplication lemmas for the steps -/

theorem stepRuntime_noop (st : PluginState) (p : PyDict) (h : st.runtime_type ≠ none) :
    stepRuntime st p = st := by
  unfold stepRuntime
  simp [h]

theorem stepInverter_noop (st : PluginState) (h : natTruthy st.invertertype = true) :
    stepInverter st = st := by
  unfold stepInverter
  simp [h]

theorem stepInfoSerial_skip (st : PluginState) (info : PyVal)
    (h : strTruthy st.info_serial = true) :
    stepInfoSerial st info = .ok st := by
  unfold stepInfoSerial
  simp [h]

theorem stepDeviceSerial_noop (st : PluginState) (p : PyDict) (h : st.device_serial ≠ none) :
    stepDeviceSerial st p = st := by
  unfold stepDeviceSerial
  simp [h]

theorem stepSerial_noop (st : PluginState) (p : PyDict)
    (h : strTruthy st.serialnumber = true) :
    stepSerial st p = st := by
  unfold stepSerial
  simp [h]

theorem stepModel_noop (st : PluginState) (h : strTruthy st._model_name = true) :
    stepModel st = st := by
  unfold stepModel
  simp [h]

/-- After `stepInverter` the bitmask is always truthy. -/
theorem stepInverter_truthy (st : PluginState) :
    natTruthy ((stepInverter st).invertertype) = true := by
  unfold stepInverter
  split
  · assumption
  · simp [natTruthy, X1]

/-- The model names the lookup produces are never empty. -/
theorem modelNameOf_ne_empty (rt : Option Int) : modelNameOf rt ≠ "" := by
  unfold modelNameOf
  split
  · simp
  · split <;> simp

/-- After `stepModel` the model name is always truthy. -/
theorem stepModel_truthy (st : PluginState) :
    strTruthy ((stepModel st)._model_name) = true := by
  unfold stepModel
  split
  · assumption
  · simp [strTruthy, modelNameOf_ne_empty]

/-- A second `stepRuntime` with the same payload fixes any state whose
`runtime_type` agrees with a first run's result. -/
theorem stepRuntime_second (st X : PluginState) (p : PyDict)
    (hX : X.runtime_type = (stepRuntime st p).runtime_type) :
    stepRuntime X p = X := by
  unfold stepRuntime at *
  by_cases h : st.runtime_type = none
  · simp [h] at hX
    by_cases h2 : X.runtime_type = none
    · rw [if_pos h2, ← hX]
    · rw [if_neg h2]
  · rw [if_neg h] at hX
    rw [if_neg (hX ▸ h)]

theorem stepInfoSerial_second (st st3 X : PluginState) (info : PyVal)
    (h : stepInfoSerial st info = .ok st3) (hX : X.info_serial = st3.info_serial) :
    stepInfoSerial X info = .ok X := by
  by_cases hg : strTruthy st.info_serial = true
  · rw [stepInfoSerial_skip st info hg] at h
    cases h
    exact stepInfoSerial_skip X info (hX ▸ hg)
  · unfold stepInfoSerial at h
    rw [if_neg hg] at h
    cases hlen : pyLen info with
    | none =>
      simp only [hlen] at h
      cases h
    | some n =>
      simp only [hlen] at h
      by_cases h2 : 2 < n
      · rw [if_pos h2] at h
        cases hidx : pyIndex info 2 with
        | error e =>
          rw [hidx] at h
          cases h
        | ok v =>
          rw [hidx] at h
          simp only [Except.map] at h
          cases h
          simp only at hX
          unfold stepInfoSerial
          by_cases hXg : strTruthy X.info_serial = true
          · rw [if_pos hXg]
          · simp only [if_neg hXg, hlen, if_pos h2, hidx, Except.map, Except.ok.injEq]
            rw [← hX]
      · rw [if_neg h2] at h
        cases h
        unfold stepInfoSerial
        by_cases hXg : strTruthy X.info_serial = true
        · rw [if_pos hXg]
        · simp only [if_neg hXg, hlen, if_neg h2]

theorem stepDeviceSerial_second (st X : PluginState) (p : PyDict)
    (hX : X.device_serial = (stepDeviceSerial st p).device_serial) :
    stepDeviceSerial X p = X := by
  unfold stepDeviceSerial at *
  by_cases h : st.device_serial = none ∧ truthy (dictGet p (.kStr "sn")) = true
  · simp [h] at hX
    have : ¬(X.device_serial = none ∧ truthy (dictGet p (.kStr "sn")) = true) := by
      rw [hX]
      simp
    rw [if_neg this]
  · rw [if_neg h] at hX
    by_cases h2 : X.device_serial = none ∧ truthy (dictGet p (.kStr "sn")) = true
    · exfalso
      exact h ⟨hX ▸ h2.1, h2.2⟩
    · rw [if_neg h2]

theorem stepSerial_second (st X : PluginState) (p : PyDict)
    (hX : X.serialnumber = (stepSerial st p).serialnumber)
    (hXd : X.device_serial = st.device_serial)
    (hXi : X.info_serial = st.info_serial)
    (hXr : X.registration = st.registration) :
    stepSerial X p = X := by
  unfold stepSerial at *
  by_cases h1 : strTruthy st.serialnumber = true
  · rw [if_pos h1] at hX
    rw [if_pos (show strTruthy X.serialnumber = true from hX ▸ h1)]
  · rw [if_neg h1] at hX
    by_cases h2 : strTruthy st.device_serial = true
    · simp only [if_pos h2] at hX
      rw [if_pos (show strTruthy X.serialnumber = true from by rw [hX]; exact h2)]
    · simp only [if_neg h2] at hX
      by_cases h3 : strTruthy st.info_serial = true
      · simp only [if_pos h3] at hX
        rw [if_pos (show strTruthy X.serialnumber = true from by rw [hX]; exact h3)]
      · simp only [if_neg h3] at hX
        by_cases h4 : truthy (dictGet p (.kStr "sn")) = true
        · simp only [if_pos h4] at hX
          by_cases hXs : strTruthy X.serialnumber = true
          · rw [if_pos hXs]
          · rw [if_neg hXs, if_neg (hXd ▸ h2), if_neg (hXi ▸ h3), if_pos h4, ← hX]
        · simp only [if_neg h4] at hX
          by_cases h5 : st.registration ≠ ""
          · simp only [if_pos h5] at hX
            rw [← hXr] at hX
            by_cases hXs : strTruthy X.serialnumber = true
            · rw [if_pos hXs]
            · rw [if_neg hXs, if_neg (hXd ▸ h2), if_neg (hXi ▸ h3), if_neg h4,
                if_pos (show X.registration ≠ "" from by rw [hXr]; exact h5), ← hX]
          · simp only [if_neg h5] at hX
            by_cases hXs : strTruthy X.serialnumber = true
            · rw [if_pos hXs]
            · rw [if_neg hXs, if_neg (hXd ▸ h2), if_neg (hXi ▸ h3), if_neg h4,
                if_neg (show ¬X.registration ≠ "" from by rw [hXr]; exact h5)]

/-- Rewriting `hwSet` fixes any state that already carries the hardware
version a first application produced. -/
theorem hwSet_second (st X : PluginState) (v : PyVal)
    (hX : X.hw_version = (hwSet st v).hw_version) :
    hwSet X v = X := by
  cases v with
  | vNone => rfl
  | vStr s =>
    by_cases hs : s = ""
    · simp only [hwSet, if_pos hs]
    · simp only [hwSet, if_neg hs] at hX ⊢
      rw [← hX]
  | vInt n =>
    simp only [hwSet] at hX ⊢
    rw [← hX]
  | vRat q =>
    simp only [hwSet] at hX ⊢
    rw [← hX]
  | vList xs =>
    simp only [hwSet] at hX ⊢
    rw [← hX]
  | vDict d =>
    simp only [hwSet] at hX ⊢
    rw [← hX]

theorem stepHW_second (st st6 X : PluginState) (info : PyVal)
    (h : stepHW st info = .ok st6) (hX : X.hw_version = st6.hw_version) :
    stepHW X info = .ok X := by
  unfold stepHW at h ⊢
  cases hlen : pyLen info with
  | none =>
    simp only [hlen] at h
    cases h
  | some n =>
    simp only [hlen] at h ⊢
    by_cases h2 : 3 < n
    · simp only [if_pos h2] at h ⊢
      cases hidx : pyIndex info 3 with
      | error e =>
        rw [hidx] at h
        cases h
      | ok v =>
        rw [hidx] at h
        simp only [Except.map] at h ⊢
        cases h
        rw [hwSet_second st X v hX]
    · simp only [if_neg h2]

theorem stepSW_second (st X : PluginState) (p : PyDict)
    (hX : X.sw_version = (stepSW st p).sw_version) :
    stepSW X p = X := by
  unfold stepSW at *
  by_cases h : truthy (dictGet p (.kStr "ver")) = true
  · simp only [if_pos h] at hX
    rw [if_pos h, ← hX]
  · rw [if_neg h]

theorem stepLast_second (X : PluginState) (p : PyDict) (h : X._last_payload = some p) :
    stepLast X p = X := by
  unfold stepLast
  rw [← h]

/-! ### Frame (projection) lemmas: each step leaves the other fields alone -/

theorem stepRuntime_frame (st : PluginState) (p : PyDict) :
    (stepRuntime st p)._last_payload = st._last_payload := by
  obtain ⟨v, e⟩ := stepRuntime_shape st p
  rw [e]

theorem stepInverter_frame (st : PluginState) :
    (stepInverter st).runtime_type = st.runtime_type ∧
    (stepInverter st)._last_payload = st._last_payload := by
  obtain ⟨v, e⟩ := stepInverter_shape st
  rw [e]
  exact ⟨rfl, rfl⟩

theorem stepInfoSerial_frame (st st3 : PluginState) (info : PyVal)
    (h : stepInfoSerial st info = .ok st3) :
    st3.invertertype = st.invertertype ∧
    st3.runtime_type = st.runtime_type ∧
    st3._last_payload = st._last_payload := by
  obtain ⟨v, e⟩ := stepInfoSerial_shape st info st3 h
  rw [e]
  exact ⟨rfl, rfl, rfl⟩

theorem stepDeviceSerial_frame (st : PluginState) (p : PyDict) :
    (stepDeviceSerial st p).info_serial = st.info_serial ∧
    (stepDeviceSerial st p).invertertype = st.invertertype ∧
    (stepDeviceSerial st p).runtime_type = st.runtime_type ∧
    (stepDeviceSerial st p)._last_payload = st._last_payload := by
  obtain ⟨v, e⟩ := stepDeviceSerial_shape st p
  rw [e]
  exact ⟨rfl, rfl, rfl, rfl⟩

theorem stepSerial_frame (st : PluginState) (p : PyDict) :
    (stepSerial st p).device_serial = st.device_serial ∧
    (stepSerial st p).info_serial = st.info_serial ∧
    (stepSerial st p).registration = st.registration ∧
    (stepSerial st p).invertertype = st.invertertype ∧
    (stepSerial st p).runtime_type = st.runtime_type ∧
    (stepSerial st p)._last_payload = st._last_payload := by
  obtain ⟨v, e⟩ := stepSerial_shape st p
  rw [e]
  exact ⟨rfl, rfl, rfl, rfl, rfl, rfl⟩

theorem stepHW_frame (st st6 : PluginState) (info : PyVal)
    (h : stepHW st info = .ok st6) :
    st6.serialnumber = st.serialnumber ∧
    st6.device_serial = st.device_serial ∧
    st6.info_serial = st.info_serial ∧
    st6.registration = st.registration ∧
    st6.invertertype = st.invertertype ∧
    st6.runtime_type = st.runtime_type ∧
    st6._last_payload = st._last_payload := by
  obtain ⟨v, e⟩ := stepHW_shape st info st6 h
  rw [e]
  exact ⟨rfl, rfl, rfl, rfl, rfl, rfl, rfl⟩

theorem stepSW_frame (st : PluginState) (p : PyDict) :
    (stepSW st p).serialnumber = st.serialnumber ∧
    (stepSW st p).hw_version = st.hw_version ∧
    (stepSW st p).device_serial = st.device_serial ∧
    (stepSW st p).info_serial = st.info_serial ∧
    (stepSW st p).registration = st.registration ∧
    (stepSW st p).invertertype = st.invertertype ∧
    (stepSW st p).runtime_type = st.runtime_type ∧
    (stepSW st p)._last_payload = st._last_payload := by
  obtain ⟨v, e⟩ := stepSW_shape st p
  rw [e]
  exact ⟨rfl, rfl, rfl, rfl, rfl, rfl, rfl, rfl⟩

theorem stepModel_frame (st : PluginState) :
    (stepModel st).serialnumber = st.serialnumber ∧
    (stepModel st).sw_version = st.sw_version ∧
    (stepModel st).hw_version = st.hw_version ∧
    (stepModel st).device_serial = st.device_serial ∧
    (stepModel st).info_serial = st.info_serial ∧
    (stepModel st).registration = st.registration ∧
    (stepModel st).invertertype = st.invertertype ∧
    (stepModel st).runtime_type = st.runtime_type ∧
    (stepModel st)._last_payload = st._last_payload := by
  obtain ⟨v, e⟩ := stepModel_shape st
  rw [e]
  exact ⟨rfl, rfl, rfl, rfl, rfl, rfl, rfl, rfl, rfl⟩

/-- C5: `_apply_payload` is idempotent: a successful application reapplied
with the identical payload returns the same state unchanged. -/
theorem applyPayload_idempotent (st : PluginState) (p : PyDict) (st' : PluginState)
    (h : applyPayload st p = .ok st') : applyPayload st' p = .ok st' := by
  obtain ⟨st3, st6, h3, h6, hst⟩ := applyPayload_ok_decomp st p st' h
  obtain ⟨m_ser, m_sw, m_hw, m_dev, m_info, m_reg, m_inv, m_rt, m_last⟩ :=
    stepModel_frame (stepSW st6 p)
  obtain ⟨w_ser, w_hw, w_dev, w_info, w_reg, w_inv, w_rt, w_last⟩ := stepSW_frame st6 p
  obtain ⟨h6_ser, h6_dev, h6_info, h6_reg, h6_inv, h6_rt, h6_last⟩ :=
    stepHW_frame _ st6 (infoOf p) h6
  obtain ⟨s_dev, s_info, s_reg, s_inv, s_rt, s_last⟩ :=
    stepSerial_frame (stepDeviceSerial st3 p) p
  obtain ⟨d_info, d_inv, d_rt, d_last⟩ := stepDeviceSerial_frame st3 p
  obtain ⟨i_inv, i_rt, i_last⟩ :=
    stepInfoSerial_frame (stepInverter (stepRuntime (stepLast st p) p)) st3 (infoOf p) h3
  obtain ⟨v_rt, v_last⟩ := stepInverter_frame (stepRuntime (stepLast st p) p)
  have r_last := stepRuntime_frame (stepLast st p) p
  have hsw : st'.sw_version = (stepSW st6 p).sw_version := by rw [hst, m_sw]
  have hhw : st'.hw_version = st6.hw_version := by rw [hst, m_hw, w_hw]
  have hser : st'.serialnumber = (stepSerial (stepDeviceSerial st3 p) p).serialnumber := by
    rw [hst, m_ser, w_ser, h6_ser]
  have hdev : st'.device_serial = (stepDeviceSerial st3 p).device_serial := by
    rw [hst, m_dev, w_dev, h6_dev, s_dev]
  have hinfo4 : st'.info_serial = (stepDeviceSerial st3 p).info_serial := by
    rw [hst, m_info, w_info, h6_info, s_info]
  have hinfo : st'.info_serial = st3.info_serial := by rw [hinfo4, d_info]
  have hreg4 : st'.registration = (stepDeviceSerial st3 p).registration := by
    rw [hst, m_reg, w_reg, h6_reg, s_reg]
  have hinv : st'.invertertype = (stepInverter (stepRuntime (stepLast st p) p)).invertertype := by
    rw [hst, m_inv, w_inv, h6_inv, s_inv, d_inv, i_inv]
  have hrt : st'.runtime_type = (stepRuntime (stepLast st p) p).runtime_type := by
    rw [hst, m_rt, w_rt, h6_rt, s_rt, d_rt, i_rt, v_rt]
  have hlast : st'._last_payload = some p := by
    rw [hst, m_last, w_last, h6_last, s_last, d_last, i_last, v_last, r_last]
    rfl
  have hmodel : strTruthy st'._model_name = true := by
    rw [hst]
    exact stepModel_truthy (stepSW st6 p)
  have hA : stepLast st' p = st' := stepLast_second st' p hlast
  have hB : stepRuntime st' p = st' := stepRuntime_second (stepLast st p) st' p hrt
  have hC : stepInverter st' = st' := by
    apply stepInverter_noop
    rw [hinv]
    exact stepInverter_truthy _
  have hD : stepInfoSerial st' (infoOf p) = .ok st' :=
    stepInfoSerial_second _ st3 st' (infoOf p) h3 hinfo
  have hE : stepDeviceSerial st' p = st' := stepDeviceSerial_second st3 st' p hdev
  have hF : stepSerial st' p = st' :=
    stepSerial_second (stepDeviceSerial st3 p) st' p hser hdev hinfo4 hreg4
  have hG : stepHW st' (infoOf p) = .ok st' := stepHW_second _ st6 st' (infoOf p) h6 hhw
  have hH : stepSW st' p = st' := stepSW_second st6 st' p hsw
  have hI : stepModel st' = st' := stepModel_noop st' hmodel
  rw [applyPayload_def, hA, hB, hC, hD]
  simp only [Except.bind]
  rw [hE, hF, hG]
  simp only
  rw [hH, hI]

/-! ### Further frame lemmas, toward the original state -/

theorem stepLast_keeps (st : PluginState) (p : PyDict) :
    (stepLast st p).serialnumber = st.serialnumber ∧
    (stepLast st p).device_serial = st.device_serial ∧
    (stepLast st p).info_serial = st.info_serial ∧
    (stepLast st p).registration = st.registration ∧
    (stepLast st p)._model_name = st._model_name ∧
    (stepLast st p).invertertype = st.invertertype ∧
    (stepLast st p).runtime_type = st.runtime_type :=
  ⟨rfl, rfl, rfl, rfl, rfl, rfl, rfl⟩

theorem stepRuntime_keeps (st : PluginState) (p : PyDict) :
    (stepRuntime st p).serialnumber = st.serialnumber ∧
    (stepRuntime st p).device_serial = st.device_serial ∧
    (stepRuntime st p).info_serial = st.info_serial ∧
    (stepRuntime st p).registration = st.registration ∧
    (stepRuntime st p)._model_name = st._model_name ∧
    (stepRuntime st p).invertertype = st.invertertype := by
  obtain ⟨v, e⟩ := stepRuntime_shape st p
  rw [e]
  exact ⟨rfl, rfl, rfl, rfl, rfl, rfl⟩

theorem stepInverter_keeps (st : PluginState) :
    (stepInverter st).serialnumber = st.serialnumber ∧
    (stepInverter st).device_serial = st.device_serial ∧
    (stepInverter st).info_serial = st.info_serial ∧
    (stepInverter st).registration = st.registration ∧
    (stepInverter st)._model_name = st._model_name := by
  obtain ⟨v, e⟩ := stepInverter_shape st
  rw [e]
  exact ⟨rfl, rfl, rfl, rfl, rfl⟩

theorem stepInfoSerial_keeps (st st3 : PluginState) (info : PyVal)
    (h : stepInfoSerial st info = .ok st3) :
    st3.serialnumber = st.serialnumber ∧
    st3.device_serial = st.device_serial ∧
    st3.registration = st.registration ∧
    st3._model_name = st._model_name := by
  obtain ⟨v, e⟩ := stepInfoSerial_shape st info st3 h
  rw [e]
  exact ⟨rfl, rfl, rfl, rfl⟩

theorem stepDeviceSerial_keeps (st : PluginState) (p : PyDict) :
    (stepDeviceSerial st p).serialnumber = st.serialnumber ∧
    (stepDeviceSerial st p).registration = st.registration ∧
    (stepDeviceSerial st p)._model_name = st._model_name := by
  obtain ⟨v, e⟩ := stepDeviceSerial_shape st p
  rw [e]
  exact ⟨rfl, rfl, rfl⟩

theorem stepSerial_keeps (st : PluginState) (p : PyDict) :
    (stepSerial st p)._model_name = st._model_name := by
  obtain ⟨v, e⟩ := stepSerial_shape st p
  rw [e]

theorem stepHW_keeps (st st6 : PluginState) (info : PyVal)
    (h : stepHW st info = .ok st6) :
    st6._model_name = st._model_name := by
  obtain ⟨v, e⟩ := stepHW_shape st info st6 h
  rw [e]

theorem stepSW_keeps (st : PluginState) (p : PyDict) :
    (stepSW st p)._model_name = st._model_name := by
  obtain ⟨v, e⟩ := stepSW_shape st p
  rw [e]

/-- C1 (amended): a field of the device identity that is already truthy
(non-null and non-empty/non-zero) is never overwritten by a later
`_apply_payload`; for `device_serial` any non-null value (even the empty
string) is kept. -/
theorem applyPayload_first_wins (st : PluginState) (p : PyDict) (st' : PluginState)
    (h : applyPayload st p = .ok st') :
    (strTruthy st.serialnumber = true → st'.serialnumber = st.serialnumber) ∧
    (st.device_serial ≠ none → st'.device_serial = st.device_serial) ∧
    (strTruthy st.info_serial = true → st'.info_serial = st.info_serial) ∧
    (st.runtime_type ≠ none → st'.runtime_type = st.runtime_type) ∧
    (natTruthy st.invertertype = true → st'.invertertype = st.invertertype) ∧
    (strTruthy st._model_name = true → st'._model_name = st._model_name) := by
  obtain ⟨st3, st6, h3, h6, hst⟩ := applyPayload_ok_decomp st p st' h
  obtain ⟨m_ser, m_sw, m_hw, m_dev, m_info, m_reg, m_inv, m_rt, m_last⟩ :=
    stepModel_frame (stepSW st6 p)
  obtain ⟨w_ser, w_hw, w_dev, w_info, w_reg, w_inv, w_rt, w_last⟩ := stepSW_frame st6 p
  obtain ⟨h6_ser, h6_dev, h6_info, h6_reg, h6_inv, h6_rt, h6_last⟩ :=
    stepHW_frame _ st6 (infoOf p) h6
  obtain ⟨s_dev, s_info, s_reg, s_inv, s_rt, s_last⟩ :=
    stepSerial_frame (stepDeviceSerial st3 p) p
  obtain ⟨d_info, d_inv, d_rt, d_last⟩ := stepDeviceSerial_frame st3 p
  obtain ⟨i_inv, i_rt, i_last⟩ :=
    stepInfoSerial_frame (stepInverter (stepRuntime (stepLast st p) p)) st3 (infoOf p) h3
  obtain ⟨v_rt, v_last⟩ := stepInverter_frame (stepRuntime (stepLast st p) p)
  obtain ⟨r_ser, r_dev, r_info, r_reg, r_model, r_inv⟩ := stepRuntime_keeps (stepLast st p) p
  obtain ⟨x_ser, x_dev, x_info, x_reg, x_model⟩ :=
    stepInverter_keeps (stepRuntime (stepLast st p) p)
  obtain ⟨y_ser, y_dev, y_reg, y_model⟩ :=
    stepInfoSerial_keeps (stepInverter (stepRuntime (stepLast st p) p)) st3 (infoOf p) h3
  obtain ⟨z_ser, z_reg, z_model⟩ := stepDeviceSerial_keeps st3 p
  refine ⟨?_, ?_, ?_, ?_, ?_, ?_⟩
  · intro hg
    have h4 : (stepDeviceSerial st3 p).serialnumber = st.serialnumber := by
      rw [z_ser, y_ser, x_ser, r_ser]
      rfl
    have h5 := stepSerial_noop (stepDeviceSerial st3 p) p (by rw [h4]; exact hg)
    rw [hst, m_ser, w_ser, h6_ser, h5, h4]
  · intro hg
    have h3d : st3.device_serial = st.device_serial := by
      rw [y_dev, x_dev, r_dev]
      rfl
    have h4 := stepDeviceSerial_noop st3 p (by rw [h3d]; exact hg)
    rw [hst, m_dev, w_dev, h6_dev, s_dev, h4, h3d]
  · intro hg
    have h2i : (stepInverter (stepRuntime (stepLast st p) p)).info_serial = st.info_serial := by
      rw [x_info, r_info]
      rfl
    have h3i := stepInfoSerial_skip (stepInverter (stepRuntime (stepLast st p) p)) (infoOf p)
      (by rw [h2i]; exact hg)
    rw [h3i] at h3
    cases h3
    rw [hst, m_info, w_info, h6_info, s_info, d_info, h2i]
  · intro hg
    have h1r := stepRuntime_noop (stepLast st p) p hg
    rw [hst, m_rt, w_rt, h6_rt, s_rt, d_rt, i_rt, v_rt, h1r]
    rfl
  · intro hg
    have h2v := stepInverter_noop (stepRuntime (stepLast st p) p)
      (by rw [r_inv]; show natTruthy st.invertertype = true; exact hg)
    rw [hst, m_inv, w_inv, h6_inv, s_inv, d_inv, i_inv, h2v, r_inv]
    rfl
  · intro hg
    have hWm : (stepSW st6 p)._model_name = st._model_name := by
      rw [stepSW_keeps, stepHW_keeps _ st6 (infoOf p) h6, stepSerial_keeps, z_model, y_model,
        x_model, r_model]
      rfl
    have := stepModel_noop (stepSW st6 p) (by rw [hWm]; exact hg)
    rw [hst, this, hWm]

/-- In `_apply_payload`, when the serial number is still falsy it is chosen
by the preference chain read off the updated state. -/
theorem applyPayload_serial_chain (st : PluginState) (p : PyDict)
    (hg : strTruthy st.serialnumber = false) :
    serialAfter st p = serialChainAfter st p := by
  unfold serialAfter serialChainAfter
  cases happ : applyPayload st p with
  | error e => rfl
  | ok st' =>
    simp only [Except.map]
    obtain ⟨st3, st6, h3, h6, hst⟩ := applyPayload_ok_decomp st p st' happ
    obtain ⟨m_ser, m_sw, m_hw, m_dev, m_info, m_reg, m_inv, m_rt, m_last⟩ :=
      stepModel_frame (stepSW st6 p)
    obtain ⟨w_ser, w_hw, w_dev, w_info, w_reg, w_inv, w_rt, w_last⟩ := stepSW_frame st6 p
    obtain ⟨h6_ser, h6_dev, h6_info, h6_reg, h6_inv, h6_rt, h6_last⟩ :=
      stepHW_frame _ st6 (infoOf p) h6
    obtain ⟨s_dev, s_info, s_reg, s_inv, s_rt, s_last⟩ :=
      stepSerial_frame (stepDeviceSerial st3 p) p
    obtain ⟨r_ser, r_dev, r_info, r_reg, r_model, r_inv⟩ := stepRuntime_keeps (stepLast st p) p
    obtain ⟨x_ser, x_dev, x_info, x_reg, x_model⟩ :=
      stepInverter_keeps (stepRuntime (stepLast st p) p)
    obtain ⟨y_ser, y_dev, y_reg, y_model⟩ :=
      stepInfoSerial_keeps (stepInverter (stepRuntime (stepLast st p) p)) st3 (infoOf p) h3
    obtain ⟨z_ser, z_reg, z_model⟩ := stepDeviceSerial_keeps st3 p
    have hser : st'.serialnumber = (stepSerial (stepDeviceSerial st3 p) p).serialnumber := by
      rw [hst, m_ser, w_ser, h6_ser]
    have hdev : st'.device_serial = (stepDeviceSerial st3 p).device_serial := by
      rw [hst, m_dev, w_dev, h6_dev, s_dev]
    have hinfo4 : st'.info_serial = (stepDeviceSerial st3 p).info_serial := by
      rw [hst, m_info, w_info, h6_info, s_info]
    have h4ser : (stepDeviceSerial st3 p).serialnumber = st.serialnumber := by
      rw [z_ser, y_ser, x_ser, r_ser]
      rfl
    have h4reg : (stepDeviceSerial st3 p).registration = st.registration := by
      rw [z_reg, y_reg, x_reg, r_reg]
      rfl
    have hn : strTruthy (stepDeviceSerial st3 p).serialnumber = false := by
      rw [h4ser]
      exact hg
    rw [hser]
    unfold stepSerial serialPreference
    rw [if_neg (show ¬strTruthy (stepDeviceSerial st3 p).serialnumber = true by rw [hn]; simp),
      hdev, hinfo4]
    by_cases c1 : strTruthy (stepDeviceSerial st3 p).device_serial = true
    · rw [if_pos c1, if_pos c1]
    · rw [if_neg c1, if_neg c1]
      by_cases c2 : strTruthy (stepDeviceSerial st3 p).info_serial = true
      · rw [if_pos c2, if_pos c2]
      · rw [if_neg c2, if_neg c2]
        by_cases c3 : truthy (dictGet p (.kStr "sn")) = true
        · rw [if_pos c3, if_pos c3]
        · rw [if_neg c3, if_neg c3]
          by_cases c4 : st.registration ≠ ""
          · rw [if_pos (show (stepDeviceSerial st3 p).registration ≠ "" by rw [h4reg]; exact c4),
              if_pos c4, h4reg]
          · rw [if_neg (show ¬(stepDeviceSerial st3 p).registration ≠ "" by rw [h4reg]; exact c4),
              if_neg c4, h4ser]

/-- In `create_plugin` without a payload, the serial number is
`info_serial or device_serial or registration` — infoSerial first. -/
theorem createPlugin_serial_order (host registration : String) (useXff : Bool)
    (info_serial device_serial firmware : Option String) :
    factorySerial host registration useXff none info_serial device_serial firmware =
      .ok (if strTruthy info_serial = true then info_serial
        else if strTruthy device_serial = true then device_serial
        else some registration) := by
  unfold factorySerial createPlugin
  by_cases c1 : strTruthy info_serial = true
  · by_cases c2 : strTruthy firmware = true
    · simp [c1, c2, Except.map]
    · simp [c1, c2, Except.map]
  · by_cases c2 : strTruthy firmware = true
    · simp [c1, c2, Except.map]
    · simp [c1, c2, Except.map]

/-! ## Claim theorems -/

/-- C1 counterexample: the firmware version (`sw_version`) set to the
non-null "1.0" by a first payload is overwritten to "2.0" by a later
payload, so it is not first-non-null-wins. -/
theorem C1_counterexample :
    (applyPayload freshState verPayload1).map PluginState.sw_version = .ok (some "1.0") ∧
    (applyTwice freshState verPayload1 verPayload2).map PluginState.sw_version
      = .ok (some "2.0") ∧
    (some "2.0" : Option String) ≠ some "1.0" :=
  ⟨rfl, rfl, by decide⟩

/-- C1 witness: on a state with every identity field populated, applying a
payload changes none of the first-wins fields. -/
theorem C1_witness :
    applyPayload fullIdentityState [] = .ok fullIdentityAfterEmpty ∧
    fullIdentityAfterEmpty.serialnumber = fullIdentityState.serialnumber ∧
    fullIdentityAfterEmpty.device_serial = fullIdentityState.device_serial ∧
    fullIdentityAfterEmpty.info_serial = fullIdentityState.info_serial ∧
    fullIdentityAfterEmpty.runtime_type = fullIdentityState.runtime_type ∧
    fullIdentityAfterEmpty.invertertype = fullIdentityState.invertertype ∧
    fullIdentityAfterEmpty._model_name = fullIdentityState._model_name := by
  have h : applyPayload fullIdentityState [] = .ok fullIdentityAfterEmpty := rfl
  have hw := applyPayload_first_wins fullIdentityState [] fullIdentityAfterEmpty h
  exact ⟨h, hw.1 rfl, hw.2.1 (by decide), hw.2.2.1 rfl, hw.2.2.2.1 (by decide),
    hw.2.2.2.2.1 rfl, hw.2.2.2.2.2 rfl⟩

/-- C5 witness: reapplying `richPayload` to the state it produced changes
nothing. -/
theorem C5_witness : applyPayload richApplied richPayload = .ok richApplied := by
  have h : applyPayload freshState richPayload = .ok richApplied := rfl
  exact applyPayload_idempotent freshState richPayload richApplied h

/-- C2 (amended): in `_apply_payload`, a falsy serial number is chosen with
preference deviceSerial, then infoSerial, then the payload serial, then the
registration; but `create_plugin` initialises it as
`info_serial or device_serial or registration` (infoSerial first), and a
non-empty registration there shadows the payload-embedded serial. -/
theorem serial_preference_amended :
    (∀ st p, strTruthy st.serialnumber = false → serialAfter st p = serialChainAfter st p) ∧
    (∀ host reg xff is1 ds fw,
      factorySerial host reg xff none is1 ds fw =
        .ok (if strTruthy is1 = true then is1
          else if strTruthy ds = true then ds else some reg)) ∧
    factorySerial "h" "R" true (some snPayload) none none none = .ok (some "R") := by
  refine ⟨fun st p hg => applyPayload_serial_chain st p hg,
    fun host reg xff is1 ds fw => createPlugin_serial_order host reg xff is1 ds fw, rfl⟩

/-- C2 counterexample: with both identity serials available, the factory
chooses the info serial "I", not the device serial "D". -/
theorem C2_counterexample :
    factorySerial "" "" true none (some "I") (some "D") none = .ok (some "I") ∧
    (some "I" : Option String) ≠ some "D" :=
  ⟨rfl, by decide⟩

/-- C2 witness: the amended preference chain evaluated at concrete inputs. -/
theorem C2_witness :
    strTruthy freshState.serialnumber = false ∧
    serialAfter freshState snPayload = serialChainAfter freshState snPayload ∧
    factorySerial "hh" "RR" true none (some "II") (some "DD") none = .ok (some "II") := by
  have h1 : strTruthy freshState.serialnumber = false := rfl
  refine ⟨h1, serial_preference_amended.1 freshState snPayload h1, ?_⟩
  rw [serial_preference_amended.2.1 "hh" "RR" true (some "II") (some "DD") none]
  rfl

/-- C10: for a descriptor that is not an `InverterSensorDescription`,
`map_data` returns `None` immediately: the snapshot is never read and the
plugin state is returned unchanged, for every state and snapshot. -/
theorem mapData_non_inverter_descr (st : PluginState) (data : PyVal) :
    mapData st .other data = .ok (st, .vNone) :=
  rfl

/-- C9: the only state `map_data` changes is the plugin's own identity and
payload cache: its state component coincides exactly with the isolated
identity-update effect `mapDataState`, for every descriptor and snapshot.
The snapshot itself is untouched — every operation of the embedding is a
pure function of it, mirroring the source, which never assigns into the
snapshot's containers. -/
theorem mapData_state_effect (st : PluginState) (descr : AnyDescr) (data : PyVal) :
    (mapData st descr data).map Prod.fst = mapDataState st descr data := by
  cases descr with
  | other => rfl
  | inverter d =>
    unfold mapData mapDataState
    cases hp : payloadOf data with
    | none => rfl
    | some p =>
      simp only
      cases applyPayload st p <;> rfl

/-- C6 (amended): whenever the identity-update step of `map_data` does not
raise (`_apply_payload` can raise on a payload whose truthy `Information`
entry is not a sized container), the decode is total: it returns the pure
`decodeValue`, and a descriptor index absent from both the live snapshot
and the cached payload yields `None`, never an exception. -/
theorem mapData_total_amended (st : PluginState) (d : InverterSensorDescription)
    (data : PyVal) (stA : PluginState)
    (h : mapDataState st (.inverter d) data = .ok stA) :
    mapData st (.inverter d) data = .ok (stA, decodeValue stA d data) ∧
    (extractIndexValue (mapDataContainer stA d data) d.index = .vNone →
      mapData st (.inverter d) data = .ok (stA, .vNone)) := by
  have h1 : mapData st (.inverter d) data = .ok (stA, decodeValue stA d data) := by
    unfold mapData mapDataState at *
    cases hp : payloadOf data with
    | none =>
      simp only [hp] at h ⊢
      cases h
      rfl
    | some p =>
      simp only [hp] at h ⊢
      rw [h]
      rfl
  refine ⟨h1, fun hmiss => ?_⟩
  rw [h1]
  unfold decodeValue
  rw [hmiss]

/-- C6 counterexample: a snapshot whose `Information` entry is the integer
5 makes the identity update evaluate `len(5)`, and `map_data` raises a
`TypeError` instead of returning `unavailable`. -/
theorem C6_counterexample :
    mapData freshState (.inverter acPowerDescr) badInfoData = .error () :=
  rfl

/-- C6 witness: with an empty snapshot the identity update succeeds, the
`ac_power` index is absent from snapshot and cache, and `map_data` returns
`None`. -/
theorem C6_witness :
    mapDataState freshState (.inverter acPowerDescr) (.vDict []) = .ok freshAfterEmpty ∧
    extractIndexValue (mapDataContainer freshAfterEmpty acPowerDescr (.vDict []))
      acPowerDescr.index = .vNone ∧
    mapData freshState (.inverter acPowerDescr) (.vDict []) = .ok (freshAfterEmpty, .vNone) := by
  have h : mapDataState freshState (.inverter acPowerDescr) (.vDict []) = .ok freshAfterEmpty :=
    rfl
  have hm : extractIndexValue (mapDataContainer freshAfterEmpty acPowerDescr (.vDict []))
      acPowerDescr.index = .vNone := rfl
  exact ⟨h, hm,
    (mapData_total_amended freshState acPowerDescr (.vDict []) freshAfterEmpty h).2 hm⟩

/-- Rounding an integer-valued rational to 0 digits returns it unchanged. -/
theorem pyRound_intCast (n : Int) : pyRound ((n : Rat)) 0 = (n : Rat) := by
  unfold pyRound roundHalfEven
  norm_num

/-- C4: decoding through the `grid_power` descriptor (unit S16, factor 1.0,
precision 0) reinterprets the raw integer as two's-complement 16-bit:
raw values at least 0x8000 decode to `r - 0x10000` and smaller raw values
are unchanged; concretely raw 0x8000 gives -32768 and raw 0x7FFF gives
32767. -/
theorem s16_decode :
    (∀ r : Int, (mapData freshState (.inverter gridPowerDescr) (gridData r)).map Prod.snd =
      .ok (.vRat (((if (0x8000 : Int) ≤ r then r - 0x10000 else r) : Int) : Rat))) ∧
    (mapData freshState (.inverter gridPowerDescr) (gridData 0x8000)).map Prod.snd =
      .ok (.vRat (-32768)) ∧
    (mapData freshState (.inverter gridPowerDescr) (gridData 0x7FFF)).map Prod.snd =
      .ok (.vRat 32767) := by
  have hgen : ∀ r : Int,
      (mapData freshState (.inverter gridPowerDescr) (gridData r)).map Prod.snd =
        .ok (.vRat (((if (0x8000 : Int) ≤ r then r - 0x10000 else r) : Int) : Rat)) := by
    intro r
    have h1 : (mapData freshState (.inverter gridPowerDescr) (gridData r)).map Prod.snd =
        .ok (.vRat (pyRound
          ((((if (0x8000 : Int) ≤ r then r - 0x10000 else r) : Int) : Rat) * 1) 0)) := rfl
    rw [h1, mul_one, pyRound_intCast]
  refine ⟨hgen, ?_, ?_⟩
  · rw [hgen 0x8000]
    norm_num
  · rw [hgen 0x7FFF]
    norm_num

/-- C8: the PV-power derive function multiplies the scaled primary voltage
by the secondary current scaled with the current factor whenever the
secondary register resolves and converts, and returns `None` whenever it
does not; concretely voltage 360.5 with raw current 25 and factor 0.1
yields 901.25, and the full `pv1_power` decode of raw voltage 3605 and raw
current 25 rounds it to 901. -/
theorem pv_power_derivation :
    (∀ (idx : Int) (f v : Rat) (data lastP : PyVal) (c : Rat),
      pyFloat (resolveDataValue data lastP (some idx) "Data") = some c →
      pvPowerValueFunction idx f v data lastP = some (v * (c * f))) ∧
    (∀ (idx : Int) (f v : Rat) (data lastP : PyVal),
      pyFloat (resolveDataValue data lastP (some idx) "Data") = none →
      pvPowerValueFunction idx f v data lastP = none) ∧
    pvPowerValueFunction 1 (1/10) (360.5 : Rat) currentOnlyData .vNone
      = some (901.25 : Rat) ∧
    (mapData freshState (.inverter pv1PowerDescr) pv1Data).map Prod.snd
      = .ok (.vRat 901) := by
  refine ⟨?_, ?_, ?_, ?_⟩
  · intro idx f v data lastP c h
    unfold pvPowerValueFunction
    cases hres : resolveDataValue data lastP (some idx) "Data" with
    | vNone =>
      rw [hres] at h
      simp [pyFloat] at h
    | vInt n =>
      rw [hres] at h
      simp only [h]
    | vRat q =>
      rw [hres] at h
      simp only [h]
    | vStr s =>
      rw [hres] at h
      simp only [h]
    | vList xs =>
      rw [hres] at h
      simp only [h]
    | vDict dd =>
      rw [hres] at h
      simp only [h]
  · intro idx f v data lastP h
    unfold pvPowerValueFunction
    cases hres : resolveDataValue data lastP (some idx) "Data" with
    | vNone => rfl
    | vInt n =>
      rw [hres] at h
      simp only [h]
    | vRat q =>
      rw [hres] at h
      simp only [h]
    | vStr s =>
      rw [hres] at h
      simp only [h]
    | vList xs =>
      rw [hres] at h
      simp only [h]
    | vDict dd =>
      rw [hres] at h
      simp only [h]
  · have h1 : pvPowerValueFunction 1 (1/10) (360.5 : Rat) currentOnlyData .vNone
        = some ((360.5 : Rat) * (((25 : Int) : Rat) * (1/10))) := rfl
    rw [h1]
    norm_num
  · have h1 : (mapData freshState (.inverter pv1PowerDescr) pv1Data).map Prod.snd
        = .ok (.vRat (pyRound ((((3605 : Int) : Rat) * (1/10)) *
            ((((25 : Int) : Rat)) * (1/10))) 0)) := rfl
    rw [h1]
    have h2 : ((((3605 : Int) : Rat) * (1/10)) * ((((25 : Int) : Rat)) * (1/10)))
        = (3605/4 : Rat) := by norm_num
    rw [h2]
    have h3 : pyRound (3605/4 : Rat) 0 = 901 := by
      unfold pyRound roundHalfEven
      norm_num
    rw [h3]

/-- C8 witness: the derive-function formula and the unresolvable-secondary
case, at concrete inputs. -/
theorem C8_witness :
    pyFloat (resolveDataValue currentOnlyData .vNone (some 1) "Data") = some ((25 : Int) : Rat) ∧
    pvPowerValueFunction 1 (1/10) (360.5 : Rat) currentOnlyData .vNone
      = some ((360.5 : Rat) * (((25 : Int) : Rat) * (1/10))) ∧
    pyFloat (resolveDataValue (.vDict []) .vNone (some 1) "Data") = none ∧
    pvPowerValueFunction 1 (1/10) (360.5 : Rat) (.vDict []) .vNone = none := by
  have h1 : pyFloat (resolveDataValue currentOnlyData .vNone (some 1) "Data")
      = some ((25 : Int) : Rat) := rfl
  have h2 : pyFloat (resolveDataValue (.vDict []) .vNone (some 1) "Data") = none := rfl
  exact ⟨h1, pv_power_derivation.1 1 (1/10) (360.5 : Rat) currentOnlyData .vNone _ h1, h2,
    pv_power_derivation.2.1 1 (1/10) (360.5 : Rat) (.vDict []) .vNone h2⟩

/-- C7: a transport call whose every attempt fails with a retried error
class performs exactly `retry + 1` attempts — in particular 4 attempts for
the configured `retry = 3` — then returns `None` without raising; the
recursion terminates for every non-negative retry count (the result is
total by construction). -/
theorem http_post_retry_bound :
    (∀ (env : Nat → AttemptOutcome) (retry : Nat),
      (∀ i, retriedOutcome (env i) = true) → httpPost env retry = (none, retry + 1)) ∧
    (∀ env : Nat → AttemptOutcome,
      (∀ i, retriedOutcome (env i) = true) → httpPost env 3 = (none, 4)) := by
  have key : ∀ (env : Nat → AttemptOutcome), (∀ i, retriedOutcome (env i) = true) →
      ∀ retry k, httpPostFrom env k retry = (none, retry + 1) := by
    intro env h retry
    induction retry with
    | zero =>
      intro k
      unfold httpPostFrom
      have hk := h k
      cases henv : env k <;> simp_all [retriedOutcome]
    | succ r ih =>
      intro k
      unfold httpPostFrom
      have hk := h k
      cases henv : env k <;> simp_all [retriedOutcome]
  exact ⟨fun env retry h => key env h retry 0, fun env h => key env h 3 0⟩

/-- C7 witness: the always-timing-out environment with `retry = 3` makes
exactly 4 attempts and returns `None`. -/
theorem C7_witness :
    (∀ i, retriedOutcome (timeoutEnv i) = true) ∧ httpPost timeoutEnv 3 = (none, 4) := by
  have h : ∀ i, retriedOutcome (timeoutEnv i) = true := fun i => rfl
  exact ⟨h, http_post_retry_bound.2 timeoutEnv h⟩

/-- C3 (amended): `_determine_type` decodes the serial pattern position by
position: a `"C"`-prefixed serial of length at least 5 gets the hardware
flag from position 4 ('0' gives V10, '1' gives V11), the phase from
position 1 ('1' gives X1, '3' gives X3) and the power class from
characters 2-3 ("07", "11", "22"); a `"50"`-prefixed serial of length at
least 5 gets V20, the phase from position 2 ('3' gives X3, '2' gives X1)
and the power class from position 4 ('B' gives POW11, 'M' gives POW22,
'7' gives POW7); any other prefix gives no match. Concretely "C1070" is
the charger-gen-1 single-phase 7kW bitmask and "5023M" the gen-2
single-phase (position 2 is '2') 22kW bitmask. -/
theorem determine_type_amended :
    (∀ (c1 c2 c3 c4 : Char) (t : List Char),
      determineType (some (String.mk ('C' :: c1 :: c2 :: c3 :: c4 :: t))) =
        some ((if c4 = '0' then V10 else if c4 = '1' then V11 else 0) |||
          (if c1 = '1' then X1 else if c1 = '3' then X3 else 0) |||
          (if [c2, c3] = ['0', '7'] then POW7
            else if [c2, c3] = ['1', '1'] then POW11
            else if [c2, c3] = ['2', '2'] then POW22 else 0))) ∧
    (∀ (c2 c3 c4 : Char) (t : List Char),
      determineType (some (String.mk ('5' :: '0' :: c2 :: c3 :: c4 :: t))) =
        some (V20 ||| (if c2 = '3' then X3 else if c2 = '2' then X1 else 0) |||
          (if c4 = 'B' then POW11 else if c4 = 'M' then POW22
            else if c4 = '7' then POW7 else 0))) ∧
    (∀ s : String, pyStartsWith s "C" = false → pyStartsWith s "50" = false →
      determineType (some s) = none) ∧
    determineType none = none ∧
    determineType (some "C1070") = some (V10 ||| X1 ||| POW7) ∧
    determineType (some "5023M") = some (V20 ||| X1 ||| POW22) := by
  refine ⟨?_, ?_, ?_, rfl, by decide, by decide⟩
  · intro c1 c2 c3 c4 t
    unfold determineType
    simp [pyStartsWith, List.isPrefixOf, charAt, pySlice, List.get?]
  · intro c2 c3 c4 t
    unfold determineType
    simp [pyStartsWith, List.isPrefixOf, charAt, pySlice, List.get?]
  · intro s hC h50
    unfold determineType
    cases s with
    | mk cs =>
      cases cs with
      | nil => rfl
      | cons c rest =>
        simp only [hC, h50]
        simp [String.length]

/-- C3 counterexample: serial "5023M" has '2' at position 2, so the code
returns the single-phase (X1) gen-2 22kW bitmask, not the three-phase (X3)
bitmask the claim asserts. -/
theorem C3_counterexample :
    determineType (some "5023M") = some (V20 ||| X1 ||| POW22) ∧
    V20 ||| X1 ||| POW22 ≠ V20 ||| X3 ||| POW22 :=
  ⟨by decide, by decide⟩

/-- C3 witness: an unrecognized prefix yields no match. -/
theorem C3_witness :
    pyStartsWith "ZZ9" "C" = false ∧ pyStartsWith "ZZ9" "50" = false ∧
    determineType (some "ZZ9") = none := by
  have h1 : pyStartsWith "ZZ9" "C" = false := by decide
  have h2 : pyStartsWith "ZZ9" "50" = false := by decide
  exact ⟨h1, h2, determine_type_amended.2.2.1 "ZZ9" h1 h2⟩
